import Mathlib

/-!
Verification of the Argo orchestrator adapter
(`src/zenml/integrations/argo/orchestrators/argo_orchestrator.py`).

The development is a shallow embedding: the adapter's dispatch routine
`prepare_or_run_pipeline`, its stack validator, and its daemon lifecycle
helpers are translated into pure Lean functions.  Interactions with the
outside world (the Argo backend, the kubeconfig file, the filesystem, the
network ports, the notebook detection) are passed in as explicit inputs, and
the backend calls the adapter makes are recorded in an explicit trace.
Collaborator modules that are not part of the repository snapshot
(StackValidator, the daemon helper, the entrypoint configuration, the base
orchestrator helpers) are modelled from the specification, as marked in
their doc comments.
-/

namespace ZenmlArgo

/-- Default local port for the Argo UI, `DEFAULT_ARGO_UI_PORT = 2746`. -/
def DEFAULT_ARGO_UI_PORT : Nat := 2746

/-- Modelled from the spec: `ResourceConfiguration` (zenml.steps), a
resource-configuration hint (CPU/memory/GPU request) attached to each step.
The module itself is not in the source snapshot; only its emptiness is
observed by the adapter. -/
structure ResourceConfiguration where
  cpu_count : Option Nat
  gpu_count : Option Nat
  memory : Option String
deriving DecidableEq, Repr

/-- A resource configuration with no requests (the default). -/
def ResourceConfiguration.empty : ResourceConfiguration → Bool
  | ⟨none, none, none⟩ => true
  | _ => false

/-- A pipeline step as seen by the adapter: a unique name plus its resource
configuration hint. -/
structure BaseStep where
  name : String
  resource_configuration : ResourceConfiguration
deriving DecidableEq, Repr

/-- Modelled from the spec: `BaseOrchestrator.requires_resources_in_orchestration_environment`
(zenml.orchestrators, not in the source snapshot): true when the step
requests non-default resources. -/
def requires_resources_in_orchestration_environment (step : BaseStep) : Bool :=
  !step.resource_configuration.empty

/-- The compiled protobuf pipeline, abstracted to the only part the adapter
reads from it: for each step name, the list of its upstream step names. -/
def Pb2Pipeline : Type := List (String × List String)

/-- Modelled from the spec: `BaseOrchestrator.get_upstream_step_names`
(zenml.orchestrators, not in the source snapshot): the upstream step names
of `step` recorded in the compiled pipeline. -/
def get_upstream_step_names (step : BaseStep) (pb2_pipeline : Pb2Pipeline) : List String :=
  (List.lookup step.name pb2_pipeline).getD []

/-- The per-run configuration bag consumed by the adapter: the built image
reference, the run name, and the optional schedule. -/
structure RuntimeConfiguration where
  docker_image : String
  run_name : Option String
  schedule : Option String
deriving DecidableEq, Repr

/-- The `ArgoOrchestrator` component configuration fields. -/
structure ArgoConfig where
  kubernetes_context : String
  kubernetes_namespace : String := "argo"
  argo_ui_port : Nat := DEFAULT_ARGO_UI_PORT
  skip_ui_daemon_provisioning : Bool := false
deriving DecidableEq, Repr

/-- Modelled from the spec: `ArgoEntrypointConfiguration.get_entrypoint_command`
(not in the source snapshot): the fixed, backend-agnostic launcher
invocation. -/
def ArgoEntrypointConfiguration.get_entrypoint_command : List String :=
  ["python", "-m", "zenml.entrypoints.step_entrypoint"]

/-- Modelled from the spec: `ArgoEntrypointConfiguration.get_entrypoint_arguments`
(not in the source snapshot): tokens encoding the step identity and a
reference to the serialized compiled pipeline, enough for an isolated
process to reconstruct exactly this step's execution context. -/
def ArgoEntrypointConfiguration.get_entrypoint_arguments (step : BaseStep)
    (pb2_pipeline : Pb2Pipeline) : List String :=
  ["--step_name", step.name,
   "--pb2_pipeline_step_count", toString pb2_pipeline.length]

/-- A hera `Task` as built inside the `Workflow` block: name, image,
entrypoint command and arguments. -/
structure ArgoTask where
  name : String
  image : String
  command : List String
  args : List String
deriving DecidableEq, Repr

/-- A backend call recorded in the dispatch trace: registering a task,
wiring a dependency edge (`upstream >> current`), or submitting the whole
workflow (`w.create()`). -/
inductive BackendCall where
  | createTask (name image : String)
  | addDependency (upstream current : String)
  | submitWorkflow
deriving DecidableEq, Repr

/-- A warning logged during dispatch. -/
inductive WarningMsg where
  | resourcesNotSupported (stepName : String)
  | scheduleNotSupported
deriving DecidableEq, Repr

/-- An error raised by `prepare_or_run_pipeline`.
`notebookError` is the `RuntimeError` for notebook environments;
`runNameMissing` is the failed `assert runtime_configuration.run_name`;
`missingUpstreamTask` is the `KeyError` of
`step_name_to_argo_task[upstream_step_name]`;
`submitFailed` is the `RuntimeError` wrapping a `w.create()` call that
raised `subprocess.CalledProcessError` — it carries the kubernetes context
name interpolated into its message;
`unhandledException` is any other exception raised by `w.create()`
(network, auth, malformed workflow), which the source does not catch: it
propagates unwrapped, carrying only its own message and no backend
identity. -/
inductive OrchestratorError where
  | notebookError
  | runNameMissing
  | missingUpstreamTask (stepName upstream : String)
  | submitFailed (kubernetes_context : String)
  | unhandledException (msg : String)
deriving DecidableEq, Repr

/-- The result of the single `w.create()` submission call: success, a
`subprocess.CalledProcessError` (the only exception type the source
catches), or any other exception (what hera's HTTP submission actually
raises on network/auth/malformed-workflow failures). -/
inductive SubmitResult where
  | ok
  | calledProcessError (msg : String)
  | otherError (msg : String)
deriving DecidableEq, Repr

/-- The observable outcome of one dispatch: the backend calls made, the
warnings logged, and the error raised (if any). -/
structure RunOutcome where
  calls : List BackendCall
  warnings : List WarningMsg
  error : Option OrchestratorError
deriving DecidableEq, Repr

/-- The mutable state of the step loop: the `step_name_to_argo_task`
dictionary (most recent binding first), the backend calls made so far, and
the warnings logged so far. -/
structure LoopState where
  dict : List (String × ArgoTask)
  calls : List BackendCall
  warnings : List WarningMsg
deriving DecidableEq, Repr

/-- The inner loop `for upstream_step_name in upstream_step_names:
step_name_to_argo_task[upstream_step_name] >> current_task`.  Returns the
dependency edges wired before the first missing key, and the `KeyError`
if a key was missing. -/
def wireUpstream (dict : List (String × ArgoTask)) (stepName : String) :
    List String → List BackendCall × Option OrchestratorError
  | [] => ([], none)
  | u :: us =>
    match List.lookup u dict with
    | none => ([], some (.missingUpstreamTask stepName u))
    | some _ =>
      let rest := wireUpstream dict stepName us
      (.addDependency u stepName :: rest.1, rest.2)

/-- The body of `for step in sorted_steps:` inside the `Workflow` block:
build the entrypoint command and arguments, create the hera `Task`, warn if
the step requests resources, record the task under its name, and wire an
edge from every upstream task.  A `KeyError` aborts the loop (the exception
propagates out of the `with` block). -/
def processSteps (pb2_pipeline : Pb2Pipeline) (image_name : String) :
    List BaseStep → LoopState → LoopState × Option OrchestratorError
  | [], st => (st, none)
  | step :: rest, st =>
    let command := ArgoEntrypointConfiguration.get_entrypoint_command
    let args := ArgoEntrypointConfiguration.get_entrypoint_arguments step pb2_pipeline
    let current_task : ArgoTask := ⟨step.name, image_name, command, args⟩
    let warnings1 :=
      if requires_resources_in_orchestration_environment step then
        st.warnings ++ [.resourcesNotSupported step.name]
      else st.warnings
    let dict1 := (step.name, current_task) :: st.dict
    let wired := wireUpstream dict1 step.name (get_upstream_step_names step pb2_pipeline)
    let st1 : LoopState :=
      ⟨dict1, st.calls ++ [.createTask step.name image_name] ++ wired.1, warnings1⟩
    match wired.2 with
    | some e => (st1, some e)
    | none => processSteps pb2_pipeline image_name rest st1

/-- `ArgoOrchestrator.prepare_or_run_pipeline`.  External effects are made
explicit: `inNotebook` is the result of `Environment.in_notebook()`, and
`submit` is the result of the single `w.create()` call.  The final match
mirrors the source's `try/except subprocess.CalledProcessError`: only that
exception type is wrapped into the context-identifying `RuntimeError`; any
other exception propagates unwrapped. -/
def prepare_or_run_pipeline (cfg : ArgoConfig) (inNotebook : Bool)
    (sorted_steps : List BaseStep) (pb2_pipeline : Pb2Pipeline)
    (runtime_configuration : RuntimeConfiguration) (submit : SubmitResult) : RunOutcome :=
  if inNotebook then
    ⟨[], [], some .notebookError⟩
  else
    match runtime_configuration.run_name with
    | none => ⟨[], [], some .runNameMissing⟩
    | some _ =>
      let image_name := runtime_configuration.docker_image
      let looped := processSteps pb2_pipeline image_name sorted_steps ⟨[], [], []⟩
      match looped.2 with
      | some e => ⟨looped.1.calls, looped.1.warnings, some e⟩
      | none =>
        let warnings2 :=
          if runtime_configuration.schedule.isSome then
            looped.1.warnings ++ [.scheduleNotSupported]
          else looped.1.warnings
        let calls2 := looped.1.calls ++ [.submitWorkflow]
        match submit with
        | .ok => ⟨calls2, warnings2, none⟩
        | .calledProcessError _ =>
          ⟨calls2, warnings2, some (.submitFailed cfg.kubernetes_context)⟩
        | .otherError msg => ⟨calls2, warnings2, some (.unhandledException msg)⟩

/-- The error `prepare_or_run_pipeline` surfaces for each result of the
submission call: none on success; the wrapped `RuntimeError` naming the
kubernetes context for a `subprocess.CalledProcessError`; the unwrapped
original exception for anything else. -/
def submissionError (cfg : ArgoConfig) : SubmitResult → Option OrchestratorError
  | .ok => none
  | .calledProcessError _ => some (.submitFailed cfg.kubernetes_context)
  | .otherError msg => some (.unhandledException msg)

/-! ## Stack validation -/

/-- The component types a validator may require.  Only the container
registry is relevant to the Argo validator. -/
inductive StackComponentType where
  | container_registry
  | orchestrator
  | artifact_store
deriving DecidableEq, Repr

/-- Display name of a component type, as used in validation messages. -/
def StackComponentType.displayName : StackComponentType → String
  | .container_registry => "container registry"
  | .orchestrator => "orchestrator"
  | .artifact_store => "artifact store"

/-- A container registry component, exposing the attributes the validator
reads: name, URI and locality. -/
structure ContainerRegistry where
  name : String
  uri : String
  is_local : Bool
deriving DecidableEq, Repr

/-- The stack as seen by the Argo validator: only the (optional) container
registry component is inspected. -/
structure Stack where
  container_registry : Option ContainerRegistry
deriving DecidableEq, Repr

/-- Whether the stack has a component of the given required type. -/
def Stack.hasComponent (stack : Stack) : StackComponentType → Bool
  | .container_registry => stack.container_registry.isSome
  | .orchestrator => true
  | .artifact_store => true

/-- Modelled from the spec: `StackValidator` (zenml.stack, not in the source
snapshot): a set of required component types plus an optional custom
validation predicate.  The predicate returns `none` when it raises
(e.g. a failed assertion). -/
structure StackValidator where
  required_components : List StackComponentType
  custom_validation_function : Option (Stack → Option (Bool × String))

/-- Modelled from the spec: `StackValidator.validate`: first checks that
every required component type is present, returning a failure naming the
missing type; then returns the custom predicate's verdict and message
verbatim.  `none` models a raised exception from the predicate. -/
def StackValidator.validate (v : StackValidator) (stack : Stack) :
    Option (Bool × String) :=
  match v.required_components.find? (fun t => !stack.hasComponent t) with
  | some t =>
    some (false, "Stack is missing a required component of type " ++ t.displayName ++ ".")
  | none =>
    match v.custom_validation_function with
    | some f => f stack
    | none => some (true, "")

/-- The failure message of `_validate` when the configured kubernetes
context is not among the kubeconfig contexts (string quoting elided). -/
def missingContextMessage (kubernetes_context : String) : String :=
  "Could not find a Kubernetes context named " ++ kubernetes_context ++
  " in the local Kubernetes configuration. Please make sure that the " ++
  "Kubernetes cluster is running and that the kubeconfig file is " ++
  "configured correctly. To list all configured contexts, run: " ++
  "kubectl config get-contexts"

/-- The closure `_validate` inside `ArgoOrchestrator.validator`.  Reading
the kubeconfig (`self.get_kubernetes_contexts()`) is made explicit as the
`contexts` input.  `none` models the failed `assert container_registry is
not None`.  The locality checks on stack components and on the container
registry are commented out in the source and therefore absent here: with
the registry present, the verdict depends only on whether the configured
kubernetes context is among the kubeconfig contexts. -/
def argo_validate (cfg : ArgoConfig) (contexts : List String) (stack : Stack) :
    Option (Bool × String) :=
  match stack.container_registry with
  | none => none
  | some _ =>
    if contexts.contains cfg.kubernetes_context then some (true, "")
    else some (false, missingContextMessage cfg.kubernetes_context)

/-- `ArgoOrchestrator.validator`: a `StackValidator` requiring a container
registry, with `_validate` as the custom predicate.  The kubeconfig
contexts that `_validate` reads are passed in explicitly. -/
def ArgoOrchestrator.validator (cfg : ArgoConfig) (contexts : List String) :
    StackValidator :=
  { required_components := [.container_registry],
    custom_validation_function := some (argo_validate cfg contexts) }

/-! ## Daemon lifecycle -/

/-- The filesystem and process reality relevant to the daemon lifecycle:
whether the orchestrator's root directory exists, whether the daemon PID
file exists, whether the process recorded in it is alive, and whether the
daemon log file exists. -/
structure DaemonState where
  rootExists : Bool
  pidFileExists : Bool
  pidAlive : Bool
  logFileExists : Bool
deriving DecidableEq, Repr

/-- Modelled from the spec: `check_if_daemon_is_running` (zenml.utils.daemon,
not in the source snapshot): true iff the PID file exists and the process
id recorded in it is alive in the process table. -/
def check_if_daemon_is_running (st : DaemonState) : Bool :=
  st.pidFileExists && st.pidAlive

/-- `ArgoOrchestrator.is_provisioned`: true iff the orchestrator's root
directory exists (`fileio.exists(self.root_directory)`). -/
def is_provisioned (st : DaemonState) : Bool :=
  st.rootExists

/-- `ArgoOrchestrator.is_running`: true when UI daemon provisioning is
skipped; otherwise, on non-Windows platforms, whether the daemon is
running per its PID file; on Windows always true. -/
def is_running (cfg : ArgoConfig) (isWin32 : Bool) (st : DaemonState) : Bool :=
  if cfg.skip_ui_daemon_provisioning then true
  else if !isWin32 then check_if_daemon_is_running st
  else true

/-- Modelled from the spec: `stop_daemon` (zenml.utils.daemon, not in the
source snapshot): sends a termination signal to the recorded process.  The
PID file itself is removed by the caller (`stop_ui_daemon` calls
`fileio.remove` right after). -/
def stop_daemon (st : DaemonState) : DaemonState :=
  { st with pidAlive := false }

/-- `ArgoOrchestrator.stop_ui_daemon`: when the PID file exists, on
non-Windows platforms stop the daemon process and remove the PID file;
on Windows do nothing. -/
def stop_ui_daemon (isWin32 : Bool) (st : DaemonState) : DaemonState :=
  if st.pidFileExists then
    if isWin32 then st
    else { stop_daemon st with pidFileExists := false }
  else st

/-- `ArgoOrchestrator.provision`: create the root directory. -/
def provision (st : DaemonState) : DaemonState :=
  { st with rootExists := true }

/-- `ArgoOrchestrator.suspend`: stop the UI daemon when it is running,
otherwise only log an informational notice. -/
def suspend (cfg : ArgoConfig) (isWin32 : Bool) (st : DaemonState) : DaemonState :=
  if !is_running cfg isWin32 st then st
  else stop_ui_daemon isWin32 st

/-- `ArgoOrchestrator.deprovision`: suspend the daemon when `is_running`,
then remove the log file when it exists.  The root directory is not
touched. -/
def deprovision (cfg : ArgoConfig) (isWin32 : Bool) (st : DaemonState) : DaemonState :=
  let st1 := if is_running cfg isWin32 st then suspend cfg isWin32 st else st
  if st1.logFileExists then { st1 with logFileExists := false } else st1

/-! ## UI daemon startup -/

/-- The outcome of `start_ui_daemon`: a warning with manual port-forward
instructions, the Windows warning, or a started daemon — each carrying the
port in play.  The function has no failure outcome: it never raises. -/
inductive UIDaemonOutcome where
  | manualInstructionsWarning (port : Nat)
  | windowsWarning (port : Nat)
  | daemonStarted (port : Nat)
deriving DecidableEq, Repr

/-- The port `start_ui_daemon` settles on: when the configured port is the
default and occupied, fall back to `find_available_port()` (passed in as
`found_port`); otherwise keep the configured port. -/
def ui_daemon_port (cfg : ArgoConfig) (port_available : Nat → Bool)
    (found_port : Nat) : Nat :=
  if cfg.argo_ui_port == DEFAULT_ARGO_UI_PORT && !port_available cfg.argo_ui_port then
    found_port
  else cfg.argo_ui_port

/-- `ArgoOrchestrator.start_ui_daemon`: port availability and
`find_available_port()` are explicit inputs.  If the settled port is still
occupied, warn with manual instructions; on Windows, warn that daemons are
unsupported; otherwise start the port-forward daemon. -/
def start_ui_daemon (cfg : ArgoConfig) (isWin32 : Bool)
    (port_available : Nat → Bool) (found_port : Nat) : UIDaemonOutcome :=
  let port := ui_daemon_port cfg port_available found_port
  if !port_available port then .manualInstructionsWarning port
  else if isWin32 then .windowsWarning port
  else .daemonStarted port

/-! ## Derived predicates on dispatch inputs -/

/-- All dictionary lookups in the step loop succeed: each step's upstream
names are among the step's own name and the names already `seen` (the step
is inserted into `step_name_to_argo_task` before its upstream lookups). -/
def lookupsSucceed (pb2_pipeline : Pb2Pipeline) : List BaseStep → List String → Bool
  | [], _ => true
  | s :: rest, seen =>
    (get_upstream_step_names s pb2_pipeline).all (fun u => (s.name :: seen).contains u) &&
    lookupsSucceed pb2_pipeline rest (s.name :: seen)

/-- `sorted_steps` is topologically ordered relative to `seen`: each step's
upstream names are names of strictly earlier steps (or in `seen`). -/
def isTopologicalOrder (pb2_pipeline : Pb2Pipeline) : List BaseStep → List String → Bool
  | [], _ => true
  | s :: rest, seen =>
    (get_upstream_step_names s pb2_pipeline).all (fun u => seen.contains u) &&
    isTopologicalOrder pb2_pipeline rest (s.name :: seen)

/-- The backend calls a successful pass over `sorted_steps` makes: one task
registration per step, followed by one dependency edge per upstream name. -/
def expectedCalls (pb2_pipeline : Pb2Pipeline) (image_name : String) :
    List BaseStep → List BackendCall
  | [] => []
  | s :: rest =>
    .createTask s.name image_name ::
      ((get_upstream_step_names s pb2_pipeline).map (fun u => .addDependency u s.name) ++
        expectedCalls pb2_pipeline image_name rest)

/-- The warnings a pass over `sorted_steps` logs: one resource warning per
step that requests non-default resources. -/
def expectedWarnings : List BaseStep → List WarningMsg
  | [] => []
  | s :: rest =>
    (if requires_resources_in_orchestration_environment s then
      [WarningMsg.resourcesNotSupported s.name]
    else []) ++ expectedWarnings rest

/-- The dependency edges among a list of backend calls, as
(upstream, downstream) name pairs. -/
def dependencyEdges (calls : List BackendCall) : List (String × String) :=
  calls.filterMap fun c =>
    match c with
    | .addDependency u v => some (u, v)
    | _ => none

/-- The upstream relation of the step graph restricted to `steps`: the pair
(u, s) for every step s and every upstream name u of s. -/
def upstreamRelation (pb2_pipeline : Pb2Pipeline) : List BaseStep → List (String × String)
  | [] => []
  | s :: rest =>
    (get_upstream_step_names s pb2_pipeline).map (fun u => (u, s.name)) ++
      upstreamRelation pb2_pipeline rest

/-! ## Lemmas about the step loop -/

lemma lookup_isSome_eq_contains (d : List (String × ArgoTask)) (u : String) :
    (List.lookup u d).isSome = (d.map Prod.fst).contains u := by
  induction d with
  | nil => rfl
  | cons p rest ih =>
    by_cases h : u = p.1
    · simp [List.lookup, h]
    · have hb : (u == p.1) = false := beq_false_of_ne h
      simp [List.lookup, hb, ih]

lemma wireUpstream_ok (dict : List (String × ArgoTask)) (stepName : String)
    (us : List String)
    (h : us.all (fun u => (dict.map Prod.fst).contains u) = true) :
    wireUpstream dict stepName us =
      (us.map (fun u => .addDependency u stepName), none) := by
  induction us with
  | nil => rfl
  | cons u rest ih =>
    simp only [List.all_cons, Bool.and_eq_true] at h
    have hl : (List.lookup u dict).isSome = true := by
      rw [lookup_isSome_eq_contains]; exact h.1
    obtain ⟨t, ht⟩ := Option.isSome_iff_exists.mp hl
    simp [wireUpstream, ht, ih h.2]

lemma wireUpstream_err_none_iff (dict : List (String × ArgoTask)) (stepName : String)
    (us : List String) :
    (wireUpstream dict stepName us).2 = none ↔
      us.all (fun u => (dict.map Prod.fst).contains u) = true := by
  induction us with
  | nil => simp [wireUpstream]
  | cons u rest ih =>
    simp only [List.all_cons]
    rcases hl : List.lookup u dict with _ | t
    · have hc : (dict.map Prod.fst).contains u = false := by
        have := lookup_isSome_eq_contains dict u
        rw [hl] at this
        exact this.symm
      rw [hc]
      simp only [wireUpstream, hl, Bool.false_and]
      constructor
      · intro h; exact absurd h (by simp)
      · intro h; exact absurd h (by simp)
    · have hc : (dict.map Prod.fst).contains u = true := by
        have := lookup_isSome_eq_contains dict u
        rw [hl] at this
        exact this.symm
      rw [hc]
      simp only [wireUpstream, hl, Bool.true_and]
      exact ih

lemma wireUpstream_error_shape (dict : List (String × ArgoTask)) (stepName : String)
    (us : List String) :
    (wireUpstream dict stepName us).2 = none ∨
      ∃ u, (wireUpstream dict stepName us).2 = some (.missingUpstreamTask stepName u) := by
  induction us with
  | nil => left; rfl
  | cons u rest ih =>
    rcases hl : List.lookup u dict with _ | t
    · right; exact ⟨u, by simp [wireUpstream, hl]⟩
    · rcases ih with h | ⟨v, hv⟩
      · left; simp [wireUpstream, hl, h]
      · right; exact ⟨v, by simp [wireUpstream, hl, hv]⟩

lemma wireUpstream_no_submit (dict : List (String × ArgoTask)) (stepName : String)
    (us : List String) :
    BackendCall.submitWorkflow ∉ (wireUpstream dict stepName us).1 := by
  induction us with
  | nil => simp [wireUpstream]
  | cons u rest ih =>
    rcases hl : List.lookup u dict with _ | t
    · simp [wireUpstream, hl]
    · simp [wireUpstream, hl, ih]

lemma processSteps_ok (pb2_pipeline : Pb2Pipeline) (image_name : String) :
    ∀ (steps : List BaseStep) (st : LoopState),
    lookupsSucceed pb2_pipeline steps (st.dict.map Prod.fst) = true →
    (processSteps pb2_pipeline image_name steps st).2 = none ∧
    (processSteps pb2_pipeline image_name steps st).1.calls =
      st.calls ++ expectedCalls pb2_pipeline image_name steps ∧
    (processSteps pb2_pipeline image_name steps st).1.warnings =
      st.warnings ++ expectedWarnings steps := by
  intro steps
  induction steps with
  | nil =>
    intro st _
    simp [processSteps, expectedCalls, expectedWarnings]
  | cons s rest ih =>
    intro st h
    simp only [lookupsSucceed, Bool.and_eq_true] at h
    have hwire := wireUpstream_ok
      ((s.name, (⟨s.name, image_name,
          ArgoEntrypointConfiguration.get_entrypoint_command,
          ArgoEntrypointConfiguration.get_entrypoint_arguments s pb2_pipeline⟩ : ArgoTask))
        :: st.dict)
      s.name (get_upstream_step_names s pb2_pipeline) (by simpa using h.1)
    simp only [processSteps, hwire]
    have ihs := ih
      ⟨(s.name, ⟨s.name, image_name,
          ArgoEntrypointConfiguration.get_entrypoint_command,
          ArgoEntrypointConfiguration.get_entrypoint_arguments s pb2_pipeline⟩) :: st.dict,
        st.calls ++ [.createTask s.name image_name] ++
          (get_upstream_step_names s pb2_pipeline).map
            (fun u => .addDependency u s.name),
        if requires_resources_in_orchestration_environment s then
          st.warnings ++ [.resourcesNotSupported s.name]
        else st.warnings⟩
      (by simpa using h.2)
    refine ⟨ihs.1, ?_, ?_⟩
    · rw [ihs.2.1]
      simp [expectedCalls, List.append_assoc]
    · rw [ihs.2.2]
      by_cases hreq : requires_resources_in_orchestration_environment s = true
      · simp [expectedWarnings, hreq, List.append_assoc]
      · simp [expectedWarnings, hreq]

lemma processSteps_err_none_iff (pb2_pipeline : Pb2Pipeline) (image_name : String) :
    ∀ (steps : List BaseStep) (st : LoopState),
    (processSteps pb2_pipeline image_name steps st).2 = none ↔
      lookupsSucceed pb2_pipeline steps (st.dict.map Prod.fst) = true := by
  intro steps
  induction steps with
  | nil =>
    intro st
    simp [processSteps, lookupsSucceed]
  | cons s rest ih =>
    intro st
    simp only [lookupsSucceed]
    rcases hw : (wireUpstream
        ((s.name, (⟨s.name, image_name,
            ArgoEntrypointConfiguration.get_entrypoint_command,
            ArgoEntrypointConfiguration.get_entrypoint_arguments s pb2_pipeline⟩ : ArgoTask))
          :: st.dict)
        s.name (get_upstream_step_names s pb2_pipeline)).2 with _ | e
    · have hall : (get_upstream_step_names s pb2_pipeline).all
          (fun u => (s.name :: st.dict.map Prod.fst).contains u) = true := by
        have := (wireUpstream_err_none_iff _ s.name _).mp hw
        simpa using this
      rw [hall, Bool.true_and]
      simp only [processSteps, hw]
      exact ih _
    · have hall : ¬ ((get_upstream_step_names s pb2_pipeline).all
          (fun u => (s.name :: st.dict.map Prod.fst).contains u) = true) := by
        intro hc
        have := (wireUpstream_err_none_iff
          ((s.name, (⟨s.name, image_name,
              ArgoEntrypointConfiguration.get_entrypoint_command,
              ArgoEntrypointConfiguration.get_entrypoint_arguments s pb2_pipeline⟩ : ArgoTask))
            :: st.dict) s.name (get_upstream_step_names s pb2_pipeline)).mpr (by simpa using hc)
        rw [hw] at this
        exact Option.noConfusion this
      simp only [processSteps, hw]
      constructor
      · intro hcon; exact Option.noConfusion hcon
      · intro hcon
        rw [Bool.and_eq_true] at hcon
        exact absurd hcon.1 hall

lemma processSteps_error_shape (pb2_pipeline : Pb2Pipeline) (image_name : String) :
    ∀ (steps : List BaseStep) (st : LoopState),
    (processSteps pb2_pipeline image_name steps st).2 = none ∨
      ∃ sn u, (processSteps pb2_pipeline image_name steps st).2 =
        some (.missingUpstreamTask sn u) := by
  intro steps
  induction steps with
  | nil => intro st; left; rfl
  | cons s rest ih =>
    intro st
    rcases wireUpstream_error_shape
      ((s.name, (⟨s.name, image_name,
          ArgoEntrypointConfiguration.get_entrypoint_command,
          ArgoEntrypointConfiguration.get_entrypoint_arguments s pb2_pipeline⟩ : ArgoTask))
        :: st.dict)
      s.name (get_upstream_step_names s pb2_pipeline) with h | ⟨u, hu⟩
    · simp only [processSteps, h]
      exact ih _
    · right
      exact ⟨s.name, u, by simp only [processSteps, hu]⟩

lemma processSteps_no_submit (pb2_pipeline : Pb2Pipeline) (image_name : String) :
    ∀ (steps : List BaseStep) (st : LoopState),
    BackendCall.submitWorkflow ∉ st.calls →
    BackendCall.submitWorkflow ∉ (processSteps pb2_pipeline image_name steps st).1.calls := by
  intro steps
  induction steps with
  | nil => intro st h; exact h
  | cons s rest ih =>
    intro st h
    have hn : BackendCall.submitWorkflow ∉
        st.calls ++ [BackendCall.createTask s.name image_name] ++
          (wireUpstream
            ((s.name, (⟨s.name, image_name,
                ArgoEntrypointConfiguration.get_entrypoint_command,
                ArgoEntrypointConfiguration.get_entrypoint_arguments s pb2_pipeline⟩ : ArgoTask))
              :: st.dict)
            s.name (get_upstream_step_names s pb2_pipeline)).1 := by
      intro hmem
      rcases List.mem_append.mp hmem with hmem1 | hmem2
      · rcases List.mem_append.mp hmem1 with hmem3 | hmem4
        · exact h hmem3
        · simp at hmem4
      · exact wireUpstream_no_submit _ _ _ hmem2
    rcases hw : (wireUpstream
        ((s.name, (⟨s.name, image_name,
            ArgoEntrypointConfiguration.get_entrypoint_command,
            ArgoEntrypointConfiguration.get_entrypoint_arguments s pb2_pipeline⟩ : ArgoTask))
          :: st.dict)
        s.name (get_upstream_step_names s pb2_pipeline)).2 with _ | e
    · simp only [processSteps, hw]
      exact ih _ hn
    · simp only [processSteps, hw]
      exact hn

lemma isTopologicalOrder_lookupsSucceed (pb2_pipeline : Pb2Pipeline) :
    ∀ (steps : List BaseStep) (seen : List String),
    isTopologicalOrder pb2_pipeline steps seen = true →
    lookupsSucceed pb2_pipeline steps seen = true := by
  intro steps
  induction steps with
  | nil => intro seen _; rfl
  | cons s rest ih =>
    intro seen h
    simp only [isTopologicalOrder, Bool.and_eq_true] at h
    simp only [lookupsSucceed, Bool.and_eq_true]
    refine ⟨?_, ih _ h.2⟩
    rw [List.all_eq_true] at h ⊢
    intro u hu
    have := h.1 u hu
    simp only [List.contains_cons]
    simp only [this, Bool.or_true]

lemma dependencyEdges_append (calls1 calls2 : List BackendCall) :
    dependencyEdges (calls1 ++ calls2) =
      dependencyEdges calls1 ++ dependencyEdges calls2 := by
  simp [dependencyEdges, List.filterMap_append]

lemma dependencyEdges_expectedCalls (pb2_pipeline : Pb2Pipeline) (image_name : String) :
    ∀ (steps : List BaseStep),
    dependencyEdges (expectedCalls pb2_pipeline image_name steps) =
      upstreamRelation pb2_pipeline steps := by
  intro steps
  induction steps with
  | nil => rfl
  | cons s rest ih =>
    simp only [expectedCalls, upstreamRelation]
    rw [show (BackendCall.createTask s.name image_name ::
        ((get_upstream_step_names s pb2_pipeline).map
          (fun u => BackendCall.addDependency u s.name) ++
          expectedCalls pb2_pipeline image_name rest)) =
        [BackendCall.createTask s.name image_name] ++
        (get_upstream_step_names s pb2_pipeline).map
          (fun u => BackendCall.addDependency u s.name) ++
          expectedCalls pb2_pipeline image_name rest from by simp]
    rw [dependencyEdges_append, dependencyEdges_append, ih]
    congr 1
    rw [show dependencyEdges [BackendCall.createTask s.name image_name] = [] from rfl]
    rw [List.nil_append]
    simp only [dependencyEdges, List.filterMap_map]
    have hcomp : ((fun c =>
        match c with
        | BackendCall.addDependency u v => some (u, v)
        | _ => none) ∘ fun u => BackendCall.addDependency u s.name) =
        some ∘ (fun u => (u, s.name)) := rfl
    rw [hcomp, List.filterMap_eq_map]

/-- With all loop lookups succeeding, `prepare_or_run_pipeline` makes the
expected calls, logs the expected warnings, and fails only when the single
submission call fails. -/
lemma prepare_or_run_pipeline_ok (cfg : ArgoConfig) (sorted_steps : List BaseStep)
    (pb2_pipeline : Pb2Pipeline) (runtime_configuration : RuntimeConfiguration)
    (submit : SubmitResult) (r : String)
    (hr : runtime_configuration.run_name = some r)
    (h : lookupsSucceed pb2_pipeline sorted_steps [] = true) :
    prepare_or_run_pipeline cfg false sorted_steps pb2_pipeline
        runtime_configuration submit =
      ⟨expectedCalls pb2_pipeline runtime_configuration.docker_image sorted_steps ++
          [.submitWorkflow],
        expectedWarnings sorted_steps ++
          (if runtime_configuration.schedule.isSome then [.scheduleNotSupported] else []),
        submissionError cfg submit⟩ := by
  have hp := processSteps_ok pb2_pipeline runtime_configuration.docker_image
    sorted_steps ⟨[], [], []⟩ (by simpa using h)
  rcases hp with ⟨h2, hcalls, hwarn⟩
  simp only [prepare_or_run_pipeline, hr, Bool.false_eq_true, if_false, h2,
    hcalls, hwarn, List.nil_append]
  rcases hs : runtime_configuration.schedule with _ | sch
  · simp only [Option.isSome_none, Bool.false_eq_true, if_false, List.append_nil]
    cases submit <;> rfl
  · simp only [Option.isSome_some, if_true]
    cases submit <;> rfl

lemma submit_not_mem_expectedCalls (pb2_pipeline : Pb2Pipeline) (image_name : String) :
    ∀ (steps : List BaseStep),
    BackendCall.submitWorkflow ∉ expectedCalls pb2_pipeline image_name steps := by
  intro steps
  induction steps with
  | nil => simp [expectedCalls]
  | cons s rest ih =>
    simp only [expectedCalls, List.mem_cons, List.mem_append]
    intro hmem
    rcases hmem with h1 | h2 | h3
    · exact BackendCall.noConfusion h1
    · rcases List.mem_map.mp h2 with ⟨u, _, hu⟩
      exact BackendCall.noConfusion hu
    · exact ih h3

lemma createTask_mem_expectedCalls (pb2_pipeline : Pb2Pipeline) (image_name : String) :
    ∀ (steps : List BaseStep) (step : BaseStep), step ∈ steps →
    BackendCall.createTask step.name image_name ∈
      expectedCalls pb2_pipeline image_name steps := by
  intro steps
  induction steps with
  | nil => intro step h; exact absurd h (List.not_mem_nil step)
  | cons s rest ih =>
    intro step h
    rcases List.mem_cons.mp h with h1 | h2
    · subst h1
      simp [expectedCalls]
    · simp only [expectedCalls, List.mem_cons, List.mem_append]
      exact Or.inr (Or.inr (ih step h2))

lemma resourcesWarning_mem_expectedWarnings :
    ∀ (steps : List BaseStep) (step : BaseStep), step ∈ steps →
    requires_resources_in_orchestration_environment step = true →
    WarningMsg.resourcesNotSupported step.name ∈ expectedWarnings steps := by
  intro steps
  induction steps with
  | nil => intro step h; exact absurd h (List.not_mem_nil step)
  | cons s rest ih =>
    intro step h hreq
    rcases List.mem_cons.mp h with h1 | h2
    · subst h1
      simp [expectedWarnings, hreq]
    · simp only [expectedWarnings, List.mem_append]
      exact Or.inr (ih step h2 hreq)

/-! ## Claim theorems -/

/-- C1: In `prepare_or_run_pipeline`, for every step in `sorted_steps` and
every one of its upstream steps, a dependency edge is wired from the
upstream step's backend task to the step's task, so the dependency edges in
the dispatch trace are exactly the upstream relation of the step graph. -/
theorem C1_dependency_edges_equal_upstream_relation (cfg : ArgoConfig)
    (sorted_steps : List BaseStep) (pb2_pipeline : Pb2Pipeline)
    (runtime_configuration : RuntimeConfiguration) (submit : SubmitResult) (r : String)
    (hr : runtime_configuration.run_name = some r)
    (htopo : isTopologicalOrder pb2_pipeline sorted_steps [] = true) :
    dependencyEdges (prepare_or_run_pipeline cfg false sorted_steps pb2_pipeline
        runtime_configuration submit).calls =
      upstreamRelation pb2_pipeline sorted_steps := by
  rw [prepare_or_run_pipeline_ok cfg sorted_steps pb2_pipeline runtime_configuration
    submit r hr (isTopologicalOrder_lookupsSucceed pb2_pipeline sorted_steps [] htopo)]
  rw [dependencyEdges_append, dependencyEdges_expectedCalls]
  simp [dependencyEdges]

/-- C1 witness: the end-to-end scenario with steps A, B, C where B consumes
A and C consumes A and B: the wired edges are A→B, A→C, B→C. -/
theorem C1_dependency_edges_equal_upstream_relation_witness :
    dependencyEdges (prepare_or_run_pipeline ⟨"kctx", "argo", 2746, false⟩ false
        [⟨"A", ⟨none, none, none⟩⟩, ⟨"B", ⟨none, none, none⟩⟩, ⟨"C", ⟨none, none, none⟩⟩]
        [("A", []), ("B", ["A"]), ("C", ["A", "B"])]
        ⟨"image:1", some "run1", none⟩ .ok).calls =
      [("A", "B"), ("A", "C"), ("B", "C")] := by
  rw [C1_dependency_edges_equal_upstream_relation ⟨"kctx", "argo", 2746, false⟩
    [⟨"A", ⟨none, none, none⟩⟩, ⟨"B", ⟨none, none, none⟩⟩, ⟨"C", ⟨none, none, none⟩⟩]
    [("A", []), ("B", ["A"]), ("C", ["A", "B"])]
    ⟨"image:1", some "run1", none⟩ .ok "run1" rfl (by decide)]
  rfl

/-- C2: invoked from a notebook execution context, `prepare_or_run_pipeline`
raises the `RuntimeError` before any backend call: the outcome has an empty
call trace, no warnings, and the notebook error. -/
theorem C2_notebook_rejected_before_backend_calls (cfg : ArgoConfig)
    (sorted_steps : List BaseStep) (pb2_pipeline : Pb2Pipeline)
    (runtime_configuration : RuntimeConfiguration) (submit : SubmitResult) :
    prepare_or_run_pipeline cfg true sorted_steps pb2_pipeline
        runtime_configuration submit =
      ⟨[], [], some .notebookError⟩ := rfl

/-- C3: unsupported-feature requests are non-fatal: a set schedule only
logs a warning and the workflow is still submitted; a step requesting
non-default resources only logs a warning and its task is still created;
the outcome's error depends only on the submission call, not on either
feature request. -/
theorem C3_feature_gap_requests_nonfatal (cfg : ArgoConfig)
    (sorted_steps : List BaseStep) (pb2_pipeline : Pb2Pipeline)
    (runtime_configuration : RuntimeConfiguration) (submit : SubmitResult) (r : String)
    (hr : runtime_configuration.run_name = some r)
    (h : lookupsSucceed pb2_pipeline sorted_steps [] = true) :
    (runtime_configuration.schedule.isSome = true →
      WarningMsg.scheduleNotSupported ∈ (prepare_or_run_pipeline cfg false sorted_steps
        pb2_pipeline runtime_configuration submit).warnings ∧
      BackendCall.submitWorkflow ∈ (prepare_or_run_pipeline cfg false sorted_steps
        pb2_pipeline runtime_configuration submit).calls) ∧
    (∀ step ∈ sorted_steps,
      requires_resources_in_orchestration_environment step = true →
      WarningMsg.resourcesNotSupported step.name ∈ (prepare_or_run_pipeline cfg false
        sorted_steps pb2_pipeline runtime_configuration submit).warnings ∧
      BackendCall.createTask step.name runtime_configuration.docker_image ∈
        (prepare_or_run_pipeline cfg false sorted_steps pb2_pipeline
          runtime_configuration submit).calls) ∧
    (prepare_or_run_pipeline cfg false sorted_steps pb2_pipeline
        runtime_configuration submit).error = submissionError cfg submit := by
  rw [prepare_or_run_pipeline_ok cfg sorted_steps pb2_pipeline runtime_configuration
    submit r hr h]
  refine ⟨?_, ?_, rfl⟩
  · intro hsch
    rw [hsch]
    constructor
    · exact List.mem_append.mpr (Or.inr (by simp))
    · exact List.mem_append.mpr (Or.inr (by simp))
  · intro step hstep hreq
    constructor
    · exact List.mem_append.mpr
        (Or.inl (resourcesWarning_mem_expectedWarnings sorted_steps step hstep hreq))
    · exact List.mem_append.mpr
        (Or.inl (createTask_mem_expectedCalls pb2_pipeline
          runtime_configuration.docker_image sorted_steps step hstep))

/-- C3 witness: one step requesting CPU resources, with a schedule set:
both warnings are logged, the task is created and the workflow submitted,
and the run does not fail. -/
theorem C3_feature_gap_requests_nonfatal_witness :
    (((⟨"img:1", some "run1", some "hourly"⟩ :
        RuntimeConfiguration).schedule.isSome) = true →
      WarningMsg.scheduleNotSupported ∈ (prepare_or_run_pipeline
        ⟨"kctx", "argo", 2746, false⟩ false [⟨"A", ⟨some 2, none, none⟩⟩]
        [("A", [])] ⟨"img:1", some "run1", some "hourly"⟩ .ok).warnings ∧
      BackendCall.submitWorkflow ∈ (prepare_or_run_pipeline
        ⟨"kctx", "argo", 2746, false⟩ false [⟨"A", ⟨some 2, none, none⟩⟩]
        [("A", [])] ⟨"img:1", some "run1", some "hourly"⟩ .ok).calls) ∧
    (∀ step ∈ [(⟨"A", ⟨some 2, none, none⟩⟩ : BaseStep)],
      requires_resources_in_orchestration_environment step = true →
      WarningMsg.resourcesNotSupported step.name ∈ (prepare_or_run_pipeline
        ⟨"kctx", "argo", 2746, false⟩ false [⟨"A", ⟨some 2, none, none⟩⟩]
        [("A", [])] ⟨"img:1", some "run1", some "hourly"⟩ .ok).warnings ∧
      BackendCall.createTask step.name (⟨"img:1", some "run1", some "hourly"⟩ :
          RuntimeConfiguration).docker_image ∈ (prepare_or_run_pipeline
        ⟨"kctx", "argo", 2746, false⟩ false [⟨"A", ⟨some 2, none, none⟩⟩]
        [("A", [])] ⟨"img:1", some "run1", some "hourly"⟩ .ok).calls) ∧
    (prepare_or_run_pipeline ⟨"kctx", "argo", 2746, false⟩ false
        [⟨"A", ⟨some 2, none, none⟩⟩] [("A", [])]
        ⟨"img:1", some "run1", some "hourly"⟩ .ok).error =
      submissionError ⟨"kctx", "argo", 2746, false⟩ .ok :=
  C3_feature_gap_requests_nonfatal ⟨"kctx", "argo", 2746, false⟩
    [⟨"A", ⟨some 2, none, none⟩⟩] [("A", [])]
    ⟨"img:1", some "run1", some "hourly"⟩ .ok "run1" rfl (by decide)

/-- C4 counterexample: a network failure of the submission call — any
exception other than `subprocess.CalledProcessError`, which is the only
kind hera's HTTP `w.create()` can actually raise — propagates unwrapped:
the surfaced error is the original exception message and does not carry
the kubernetes context, refuting "for every failure of that submission
call, a single fatal error is surfaced that identifies the backend". -/
theorem C4_network_failure_not_wrapped :
    (prepare_or_run_pipeline ⟨"kctx", "argo", 2746, false⟩ false
        [⟨"A", ⟨none, none, none⟩⟩] [("A", [])]
        ⟨"img:1", some "run1", none⟩ (.otherError "connection refused")).error =
      some (.unhandledException "connection refused") ∧
    (prepare_or_run_pipeline ⟨"kctx", "argo", 2746, false⟩ false
        [⟨"A", ⟨none, none, none⟩⟩] [("A", [])]
        ⟨"img:1", some "run1", none⟩ (.otherError "connection refused")).error ≠
      some (.submitFailed "kctx") := by
  decide

/-- C4 (amended): submission is a single `w.create()` call per pipeline —
the trace contains exactly one submission — and no created state differs
between a failing and the succeeding dispatch (no partial cleanup); but
only a `subprocess.CalledProcessError` is wrapped into the single fatal
error carrying the kubernetes context: any other submission exception
propagates unwrapped, without backend identity. -/
theorem C4_single_submission_wrapping_conditional (cfg : ArgoConfig)
    (sorted_steps : List BaseStep) (pb2_pipeline : Pb2Pipeline)
    (runtime_configuration : RuntimeConfiguration) (submit : SubmitResult) (r : String)
    (hr : runtime_configuration.run_name = some r)
    (h : lookupsSucceed pb2_pipeline sorted_steps [] = true) :
    (prepare_or_run_pipeline cfg false sorted_steps pb2_pipeline
        runtime_configuration submit).calls.count BackendCall.submitWorkflow = 1 ∧
    (prepare_or_run_pipeline cfg false sorted_steps pb2_pipeline
        runtime_configuration submit).calls =
      (prepare_or_run_pipeline cfg false sorted_steps pb2_pipeline
        runtime_configuration .ok).calls ∧
    (prepare_or_run_pipeline cfg false sorted_steps pb2_pipeline
        runtime_configuration submit).warnings =
      (prepare_or_run_pipeline cfg false sorted_steps pb2_pipeline
        runtime_configuration .ok).warnings ∧
    (∀ msg, submit = .calledProcessError msg →
      (prepare_or_run_pipeline cfg false sorted_steps pb2_pipeline
          runtime_configuration submit).error =
        some (.submitFailed cfg.kubernetes_context)) ∧
    (∀ msg, submit = .otherError msg →
      (prepare_or_run_pipeline cfg false sorted_steps pb2_pipeline
          runtime_configuration submit).error =
        some (.unhandledException msg)) := by
  rw [prepare_or_run_pipeline_ok cfg sorted_steps pb2_pipeline runtime_configuration
    submit r hr h,
    prepare_or_run_pipeline_ok cfg sorted_steps pb2_pipeline runtime_configuration
    .ok r hr h]
  refine ⟨?_, rfl, rfl, ?_, ?_⟩
  · rw [List.count_append]
    rw [List.count_eq_zero.mpr
      (submit_not_mem_expectedCalls pb2_pipeline
        runtime_configuration.docker_image sorted_steps)]
    rfl
  · intro msg hs
    rw [hs]
    rfl
  · intro msg hs
    rw [hs]
    rfl

/-- C4 witness: a one-step pipeline whose submission raises
`subprocess.CalledProcessError`: the trace has exactly one submission and
matches the successful trace, and the error is the wrapped one carrying
the kubernetes context. -/
theorem C4_single_submission_wrapping_conditional_witness :
    (prepare_or_run_pipeline ⟨"kctx", "argo", 2746, false⟩ false
        [⟨"A", ⟨none, none, none⟩⟩] [("A", [])]
        ⟨"img:1", some "run1", none⟩
        (.calledProcessError "exit status 1")).calls.count
      BackendCall.submitWorkflow = 1 ∧
    (prepare_or_run_pipeline ⟨"kctx", "argo", 2746, false⟩ false
        [⟨"A", ⟨none, none, none⟩⟩] [("A", [])]
        ⟨"img:1", some "run1", none⟩ (.calledProcessError "exit status 1")).calls =
      (prepare_or_run_pipeline ⟨"kctx", "argo", 2746, false⟩ false
        [⟨"A", ⟨none, none, none⟩⟩] [("A", [])]
        ⟨"img:1", some "run1", none⟩ .ok).calls ∧
    (prepare_or_run_pipeline ⟨"kctx", "argo", 2746, false⟩ false
        [⟨"A", ⟨none, none, none⟩⟩] [("A", [])]
        ⟨"img:1", some "run1", none⟩ (.calledProcessError "exit status 1")).warnings =
      (prepare_or_run_pipeline ⟨"kctx", "argo", 2746, false⟩ false
        [⟨"A", ⟨none, none, none⟩⟩] [("A", [])]
        ⟨"img:1", some "run1", none⟩ .ok).warnings ∧
    (∀ msg, (SubmitResult.calledProcessError "exit status 1") =
        .calledProcessError msg →
      (prepare_or_run_pipeline ⟨"kctx", "argo", 2746, false⟩ false
          [⟨"A", ⟨none, none, none⟩⟩] [("A", [])]
          ⟨"img:1", some "run1", none⟩ (.calledProcessError "exit status 1")).error =
        some (.submitFailed (⟨"kctx", "argo", 2746, false⟩ :
          ArgoConfig).kubernetes_context)) ∧
    (∀ msg, (SubmitResult.calledProcessError "exit status 1") = .otherError msg →
      (prepare_or_run_pipeline ⟨"kctx", "argo", 2746, false⟩ false
          [⟨"A", ⟨none, none, none⟩⟩] [("A", [])]
          ⟨"img:1", some "run1", none⟩ (.calledProcessError "exit status 1")).error =
        some (.unhandledException msg)) :=
  C4_single_submission_wrapping_conditional ⟨"kctx", "argo", 2746, false⟩
    [⟨"A", ⟨none, none, none⟩⟩] [("A", [])]
    ⟨"img:1", some "run1", none⟩ (.calledProcessError "exit status 1") "run1"
    rfl (by decide)

/-- C10 counterexample: a step listing itself as upstream is not preceded
by its upstream step, yet dispatch does not fail with a missing-key error —
the step is inserted into `step_name_to_argo_task` before its upstream
lookups, so the lookup finds the step itself and the workflow is
submitted. -/
theorem C10_self_upstream_no_missing_key :
    isTopologicalOrder [("A", ["A"])] [⟨"A", ⟨none, none, none⟩⟩] [] = false ∧
    (prepare_or_run_pipeline ⟨"kctx", "argo", 2746, false⟩ false
        [⟨"A", ⟨none, none, none⟩⟩] [("A", ["A"])]
        ⟨"img:1", some "run1", none⟩ .ok).error = none ∧
    BackendCall.submitWorkflow ∈ (prepare_or_run_pipeline
        ⟨"kctx", "argo", 2746, false⟩ false [⟨"A", ⟨none, none, none⟩⟩]
        [("A", ["A"])] ⟨"img:1", some "run1", none⟩ .ok).calls := by
  decide

/-- C10 (amended): an upstream lookup succeeds exactly when the upstream
name is the step's own name or the name of an earlier step.  When every
step's upstream names satisfy this, dispatch proceeds to submission and
fails only if the submission call fails; otherwise dispatch fails with a
missing-key error and the workflow is never submitted. -/
theorem C10_missing_key_iff_upstream_not_seen (cfg : ArgoConfig)
    (sorted_steps : List BaseStep) (pb2_pipeline : Pb2Pipeline)
    (runtime_configuration : RuntimeConfiguration) (submit : SubmitResult) (r : String)
    (hr : runtime_configuration.run_name = some r) :
    (lookupsSucceed pb2_pipeline sorted_steps [] = true →
      (prepare_or_run_pipeline cfg false sorted_steps pb2_pipeline
          runtime_configuration submit).error = submissionError cfg submit) ∧
    (lookupsSucceed pb2_pipeline sorted_steps [] = false →
      (∃ sn u, (prepare_or_run_pipeline cfg false sorted_steps pb2_pipeline
          runtime_configuration submit).error =
        some (.missingUpstreamTask sn u)) ∧
      BackendCall.submitWorkflow ∉ (prepare_or_run_pipeline cfg false sorted_steps
        pb2_pipeline runtime_configuration submit).calls) := by
  constructor
  · intro hl
    rw [prepare_or_run_pipeline_ok cfg sorted_steps pb2_pipeline
      runtime_configuration submit r hr hl]
  · intro hl
    have hne : (processSteps pb2_pipeline runtime_configuration.docker_image
        sorted_steps ⟨[], [], []⟩).2 ≠ none := by
      intro hc
      have h2 := (processSteps_err_none_iff pb2_pipeline
        runtime_configuration.docker_image sorted_steps ⟨[], [], []⟩).mp hc
      rw [show (((⟨[], [], []⟩ : LoopState)).dict.map Prod.fst) =
        ([] : List String) from rfl] at h2
      rw [hl] at h2
      exact Bool.noConfusion h2
    rcases processSteps_error_shape pb2_pipeline
        runtime_configuration.docker_image sorted_steps ⟨[], [], []⟩ with
      hnone | ⟨sn, u, hsome⟩
    · exact absurd hnone hne
    · have hsub := processSteps_no_submit pb2_pipeline
        runtime_configuration.docker_image sorted_steps ⟨[], [], []⟩ (by simp)
      refine ⟨⟨sn, u, ?_⟩, ?_⟩
      · simp only [prepare_or_run_pipeline, hr, Bool.false_eq_true, if_false, hsome]
      · simp only [prepare_or_run_pipeline, hr, Bool.false_eq_true, if_false, hsome]
        exact hsub

/-- C10 witness: a single step whose upstream name X was never registered:
the dispatch fails with the missing-key error and never submits; had the
lookups succeeded, only submission could fail. -/
theorem C10_missing_key_iff_upstream_not_seen_witness :
    (lookupsSucceed [("B", ["X"])] [⟨"B", ⟨none, none, none⟩⟩] [] = true →
      (prepare_or_run_pipeline ⟨"kctx", "argo", 2746, false⟩ false
          [⟨"B", ⟨none, none, none⟩⟩] [("B", ["X"])]
          ⟨"img:1", some "run1", none⟩ .ok).error =
        submissionError ⟨"kctx", "argo", 2746, false⟩ .ok) ∧
    (lookupsSucceed [("B", ["X"])] [⟨"B", ⟨none, none, none⟩⟩] [] = false →
      (∃ sn u, (prepare_or_run_pipeline ⟨"kctx", "argo", 2746, false⟩ false
          [⟨"B", ⟨none, none, none⟩⟩] [("B", ["X"])]
          ⟨"img:1", some "run1", none⟩ .ok).error =
        some (.missingUpstreamTask sn u)) ∧
      BackendCall.submitWorkflow ∉ (prepare_or_run_pipeline
        ⟨"kctx", "argo", 2746, false⟩ false [⟨"B", ⟨none, none, none⟩⟩]
        [("B", ["X"])] ⟨"img:1", some "run1", none⟩ .ok).calls) :=
  C10_missing_key_iff_upstream_not_seen ⟨"kctx", "argo", 2746, false⟩
    [⟨"B", ⟨none, none, none⟩⟩] [("B", ["X"])]
    ⟨"img:1", some "run1", none⟩ .ok "run1" rfl

/-- C5 counterexample: a stack whose container registry is local passes
validation — the Argo validator returns success (true, "") rather than a
failure naming the container registry, because the registry-locality check
is commented out in the source. -/
theorem C5_local_registry_passes :
    StackValidator.validate
      (ArgoOrchestrator.validator ⟨"kctx", "argo", 2746, false⟩ ["kctx"])
      ⟨some ⟨"local-registry", "localhost:5000", true⟩⟩ = some (true, "") := by
  rfl

/-- C5 (amended): for every stack whose container registry is local, as
long as the registry component is present and the configured kubernetes
context is among the kubeconfig contexts, validation by the Argo
orchestrator's validator succeeds with (true, "").  The locality of the
registry is never examined: the check is commented out in the source. -/
theorem C5_validator_ignores_registry_locality (cfg : ArgoConfig)
    (contexts : List String) (stack : Stack) (reg : ContainerRegistry)
    (hreg : stack.container_registry = some reg)
    (_hlocal : reg.is_local = true)
    (hctx : contexts.contains cfg.kubernetes_context = true) :
    StackValidator.validate (ArgoOrchestrator.validator cfg contexts) stack =
      some (true, "") := by
  have hpresent : stack.hasComponent .container_registry = true := by
    simp [Stack.hasComponent, hreg]
  simp only [StackValidator.validate, ArgoOrchestrator.validator,
    List.find?, hpresent, Bool.not_true]
  simp only [argo_validate, hreg, hctx, if_true]

/-- C5 witness: a concrete local registry in a stack with the context
configured passes validation. -/
theorem C5_validator_ignores_registry_locality_witness :
    StackValidator.validate
      (ArgoOrchestrator.validator ⟨"ctx2", "argo", 2746, false⟩ ["ctx1", "ctx2"])
      ⟨some ⟨"reg", "localhost:9999", true⟩⟩ = some (true, "") :=
  C5_validator_ignores_registry_locality ⟨"ctx2", "argo", 2746, false⟩
    ["ctx1", "ctx2"] ⟨some ⟨"reg", "localhost:9999", true⟩⟩
    ⟨"reg", "localhost:9999", true⟩ rfl rfl (by decide)

/-- C6 counterexample: the custom validation predicate `_validate` is not a
function of the stack alone — on the identical stack, two runs with
different kubeconfig contexts return different verdicts, because
`_validate` reads the kubeconfig through `get_kubernetes_contexts`. -/
theorem C6_verdict_depends_on_kubeconfig :
    argo_validate ⟨"kctx", "argo", 2746, false⟩ ["kctx"]
        ⟨some ⟨"reg", "gcr.io/proj", false⟩⟩ ≠
      argo_validate ⟨"kctx", "argo", 2746, false⟩ []
        ⟨some ⟨"reg", "gcr.io/proj", false⟩⟩ := by
  decide

/-- C6 (amended): `_validate` is a pure function of the stack together with
the kubeconfig contexts: given a stack with the registry present, its
verdict is fully determined by whether the configured kubernetes context is
among the contexts; there is no mutation of the stack (the verdict is a
value computed from the inputs), but identical stacks alone do not
determine the verdict. -/
theorem C6_validate_pure_in_stack_and_contexts (cfg : ArgoConfig)
    (contexts : List String) (stack : Stack) (reg : ContainerRegistry)
    (hreg : stack.container_registry = some reg) :
    argo_validate cfg contexts stack =
      some (if contexts.contains cfg.kubernetes_context then (true, "")
            else (false, missingContextMessage cfg.kubernetes_context)) := by
  simp only [argo_validate, hreg]
  split <;> simp_all

/-- C6 witness: on a concrete stack and contexts, `_validate` returns the
verdict determined by context membership. -/
theorem C6_validate_pure_in_stack_and_contexts_witness :
    argo_validate ⟨"kctx", "argo", 2746, false⟩ ["other"]
        ⟨some ⟨"reg", "gcr.io/proj", false⟩⟩ =
      some (if ["other"].contains (⟨"kctx", "argo", 2746, false⟩ :
          ArgoConfig).kubernetes_context then (true, "")
        else (false, missingContextMessage (⟨"kctx", "argo", 2746, false⟩ :
          ArgoConfig).kubernetes_context)) :=
  C6_validate_pure_in_stack_and_contexts ⟨"kctx", "argo", 2746, false⟩
    ["other"] ⟨some ⟨"reg", "gcr.io/proj", false⟩⟩ ⟨"reg", "gcr.io/proj", false⟩ rfl

/-- C7 counterexample: with `skip_ui_daemon_provisioning = True`,
`is_running` returns True even though the process recorded in the PID file
is dead — it does not consult the PID file at all in that configuration. -/
theorem C7_skip_flag_masks_dead_daemon :
    is_running ⟨"kctx", "argo", 2746, true⟩ false ⟨true, true, false, false⟩ = true := by
  rfl

/-- C7 (amended): when UI daemon provisioning is not skipped and the
platform is not Windows, `is_running` is exactly
`check_if_daemon_is_running` on the PID file — in particular it returns
False whenever the recorded daemon process is not alive (e.g. crashed). -/
theorem C7_is_running_reflects_pid_file (cfg : ArgoConfig) (st : DaemonState)
    (hskip : cfg.skip_ui_daemon_provisioning = false) :
    is_running cfg false st = check_if_daemon_is_running st ∧
    (st.pidAlive = false → is_running cfg false st = false) := by
  constructor
  · simp [is_running, hskip]
  · intro ha
    simp [is_running, hskip, check_if_daemon_is_running, ha]

/-- C7 witness: an orchestrator with provisioning not skipped and a PID
file whose process is dead reports not running. -/
theorem C7_is_running_reflects_pid_file_witness :
    is_running ⟨"kctx", "argo", 2746, false⟩ false ⟨true, true, false, true⟩ =
      check_if_daemon_is_running ⟨true, true, false, true⟩ ∧
    ((⟨true, true, false, true⟩ : DaemonState).pidAlive = false →
      is_running ⟨"kctx", "argo", 2746, false⟩ false ⟨true, true, false, true⟩ = false) :=
  C7_is_running_reflects_pid_file ⟨"kctx", "argo", 2746, false⟩
    ⟨true, true, false, true⟩ rfl

/-- C8 counterexample: after `deprovision()` on a provisioned orchestrator
(root directory present, log file present, daemon not running),
`is_provisioned` still reports True — the root directory is never removed,
so the orchestrator does not return to the UNPROVISIONED state. -/
theorem C8_root_directory_survives_deprovision :
    is_provisioned (deprovision ⟨"kctx", "argo", 2746, false⟩ false
      ⟨true, false, false, true⟩) = true := by
  rfl

/-- C8 (amended): `deprovision` stops a running daemon (removing its PID
file) and removes the log file, and is a no-op — in particular safe — when
already unprovisioned; but it leaves the root directory untouched, so
`is_provisioned` is unchanged rather than False afterwards. -/
theorem C8_deprovision_stops_daemon_keeps_root (cfg : ArgoConfig)
    (isWin32 : Bool) (st : DaemonState) :
    (deprovision cfg isWin32 st).rootExists = st.rootExists ∧
    (deprovision cfg isWin32 st).logFileExists = false ∧
    (cfg.skip_ui_daemon_provisioning = false → isWin32 = false →
      st.pidFileExists = true → st.pidAlive = true →
      (deprovision cfg isWin32 st).pidFileExists = false ∧
      (deprovision cfg isWin32 st).pidAlive = false) ∧
    (st.rootExists = false → st.pidFileExists = false → st.logFileExists = false →
      deprovision cfg isWin32 st = st) := by
  rcases cfg with ⟨kc, kn, port, skip⟩
  rcases st with ⟨root, pf, pa, lf⟩
  cases skip <;> cases isWin32 <;> cases root <;> cases pf <;> cases pa <;> cases lf <;>
    simp [deprovision, suspend, stop_ui_daemon, stop_daemon, is_running,
      check_if_daemon_is_running, is_provisioned]

/-- C8 witness: deprovisioning a provisioned orchestrator with a live
daemon removes the PID file, kills the daemon, removes the log, keeps the
root directory; and on a fully unprovisioned state it is a no-op. -/
theorem C8_deprovision_stops_daemon_keeps_root_witness :
    (deprovision ⟨"kctx", "argo", 2746, false⟩ false
        ⟨true, true, true, true⟩).rootExists =
      (⟨true, true, true, true⟩ : DaemonState).rootExists ∧
    (deprovision ⟨"kctx", "argo", 2746, false⟩ false
        ⟨true, true, true, true⟩).logFileExists = false ∧
    ((⟨"kctx", "argo", 2746, false⟩ :
        ArgoConfig).skip_ui_daemon_provisioning = false → false = false →
      (⟨true, true, true, true⟩ : DaemonState).pidFileExists = true →
      (⟨true, true, true, true⟩ : DaemonState).pidAlive = true →
      (deprovision ⟨"kctx", "argo", 2746, false⟩ false
        ⟨true, true, true, true⟩).pidFileExists = false ∧
      (deprovision ⟨"kctx", "argo", 2746, false⟩ false
        ⟨true, true, true, true⟩).pidAlive = false) ∧
    ((⟨true, true, true, true⟩ : DaemonState).rootExists = false →
      (⟨true, true, true, true⟩ : DaemonState).pidFileExists = false →
      (⟨true, true, true, true⟩ : DaemonState).logFileExists = false →
      deprovision ⟨"kctx", "argo", 2746, false⟩ false ⟨true, true, true, true⟩ =
        ⟨true, true, true, true⟩) :=
  C8_deprovision_stops_daemon_keeps_root ⟨"kctx", "argo", 2746, false⟩ false
    ⟨true, true, true, true⟩

/-- C9: a bound UI port never fails the run: when the configured port is
the default and occupied, `start_ui_daemon` falls back to the port found by
`find_available_port`; when the settled port is still occupied it only logs
a warning with manual port-forward instructions; otherwise (non-Windows) it
starts the daemon.  Every outcome is a warning or a started daemon — the
source function has no raise path. -/
theorem C9_occupied_ui_port_degrades_gracefully (cfg : ArgoConfig)
    (isWin32 : Bool) (port_available : Nat → Bool) (found_port : Nat)
    (hdefault : cfg.argo_ui_port = DEFAULT_ARGO_UI_PORT)
    (hocc : port_available cfg.argo_ui_port = false) :
    ui_daemon_port cfg port_available found_port = found_port ∧
    (port_available found_port = false →
      start_ui_daemon cfg isWin32 port_available found_port =
        .manualInstructionsWarning found_port) ∧
    (port_available found_port = true → isWin32 = false →
      start_ui_daemon cfg isWin32 port_available found_port =
        .daemonStarted found_port) := by
  have hocc2 : port_available DEFAULT_ARGO_UI_PORT = false := by
    rw [← hdefault]
    exact hocc
  have hport : ui_daemon_port cfg port_available found_port = found_port := by
    simp [ui_daemon_port, hdefault, hocc2]
  refine ⟨hport, ?_, ?_⟩
  · intro hf
    simp [start_ui_daemon, hport, hf]
  · intro hf hw
    simp [start_ui_daemon, hport, hf, hw]

/-- C9 witness: with the default port occupied and every port occupied, the
outcome is the manual-instructions warning at the fallback port; had the
fallback port been free, the daemon would have started. -/
theorem C9_occupied_ui_port_degrades_gracefully_witness :
    ui_daemon_port ⟨"kctx", "argo", 2746, false⟩ (fun _ => false) 3000 = 3000 ∧
    ((fun (_ : Nat) => false) 3000 = false →
      start_ui_daemon ⟨"kctx", "argo", 2746, false⟩ false (fun _ => false) 3000 =
        .manualInstructionsWarning 3000) ∧
    ((fun (_ : Nat) => false) 3000 = true → false = false →
      start_ui_daemon ⟨"kctx", "argo", 2746, false⟩ false (fun _ => false) 3000 =
        .daemonStarted 3000) :=
  C9_occupied_ui_port_degrades_gracefully ⟨"kctx", "argo", 2746, false⟩ false
    (fun _ => false) 3000 rfl rfl

end ZenmlArgo
